import Mathlib

/-!
Shallow embedding of the MCP AI Assistant API server (FastAPI app in
`api_server.py` together with the tool modules `finance_tools.py` and
`data_analysis_tools.py`).

Modelling conventions:
* Python strings are Lean `String`s; `needle in hay` is `pyIn`,
  `str.lower()` is `pyLower`, `str.upper()` is `pyUpper`,
  `str.endswith(t)` is `pyEndsWith`, `str.split()` is `pySplit`.
* Python floats are modelled as rationals `ℚ` (exact arithmetic).
* A call to an external service or library that may raise is modelled by an
  explicit `Except String α` argument holding either the fetched value or the
  raised exception's string message; a `try/except` boundary is the `match` on
  that argument.
* `raise HTTPException(status, detail)` and the surrounding
  `except Exception: raise HTTPException(400, str(e))` re-wrap are modelled by
  `Except HttpError` results; `str` of an `HTTPException` is
  `strOfHttpError` (Starlette renders it as `"{status_code}: {detail}"`).
* pandas renderings (`to_string`, `describe`, dtype dictionaries, …) are opaque
  string-valued fields of the `DataFrame` structure; the control flow around
  them (keyword dispatch, emptiness tests, counts) is translated exactly.
* `datetime.now().isoformat()` is an explicit `now : String` argument.
-/

/-- Substring test on character lists: `needle` occurs inside `hay`.
Mirrors Python's `needle in hay` for strings (empty needle matches). -/
def listContains : List Char → List Char → Bool
  | hay, needle =>
    if needle.isPrefixOf hay then true
    else match hay with
      | [] => false
      | _ :: t => listContains t needle

/-- Python `needle in hay` on strings. -/
def pyIn (needle hay : String) : Bool := listContains hay.toList needle.toList

/-- Python `s.lower()` (ASCII case mapping suffices for the keywords used). -/
def pyLower (s : String) : String := ⟨s.toList.map Char.toLower⟩

/-- Python `s.upper()`. -/
def pyUpper (s : String) : String := ⟨s.toList.map Char.toUpper⟩

/-- Python `s.endswith(suffix)`: the last `len(suffix)` characters equal
`suffix` (case-sensitive). -/
def pyEndsWith (s suffix : String) : Bool :=
  decide (s.toList.drop (s.toList.length - suffix.toList.length) = suffix.toList)

/-- Python `s.split()`: split on whitespace runs, dropping empty pieces. -/
def pySplit (s : String) : List String :=
  (s.split Char.isWhitespace).filter (fun w => w != "")

/-- Accumulator for `extractNumbers`: the optional argument holds the value of
the digit run currently being read. -/
def digitRunsAux : List Char → Option Nat → List Nat
  | [], none => []
  | [], some n => [n]
  | c :: t, none =>
      if c.isDigit then digitRunsAux t (some (c.toNat - 48)) else digitRunsAux t none
  | c :: t, some n =>
      if c.isDigit then digitRunsAux t (some (n * 10 + (c.toNat - 48)))
      else n :: digitRunsAux t none

/-- Python `re.findall(r"\d+", s)` followed by `int(...)` on each match:
the maximal digit runs of `s`, as numbers. -/
def extractNumbers (s : String) : List Nat := digitRunsAux s.toList none

/-- A single-quote character as a string (used by Python's `repr` of lists). -/
def sglq : String := String.singleton (Char.ofNat 39)

/-- Python `repr` of a list of strings, as produced by an f-string
`{list(cols)}`. -/
def pyListRepr (l : List String) : String :=
  "[" ++ String.intercalate ", " (l.map (fun s => sglq ++ s ++ sglq)) ++ "]"

/-- An HTTP error response as raised via `HTTPException(status_code, detail)`. -/
structure HttpError where
  status : Nat
  detail : String
deriving DecidableEq, Repr

/-- Starlette's `str()` of an `HTTPException`: `"{status_code}: {detail}"`. -/
def strOfHttpError (e : HttpError) : String := toString e.status ++ ": " ++ e.detail

/-- Response body of the four math endpoints in `api_server.py`. -/
structure MathResponse where
  result : ℚ
  operation : String
  inputs : List ℚ
deriving DecidableEq, Repr

/-- `POST /api/math/add` (`add_numbers` in `api_server.py`). -/
def add_numbers (a b : ℚ) : MathResponse :=
  { result := a + b, operation := "addition", inputs := [a, b] }

/-- `POST /api/math/multiply` (`multiply_numbers` in `api_server.py`). -/
def multiply_numbers (a b : ℚ) : MathResponse :=
  { result := a * b, operation := "multiplication", inputs := [a, b] }

/-- `POST /api/math/subtract` (`subtract_numbers` in `api_server.py`). -/
def subtract_numbers (a b : ℚ) : MathResponse :=
  { result := a - b, operation := "subtraction", inputs := [a, b] }

/-- `POST /api/math/divide` (`divide_numbers` in `api_server.py`).  The inner
`HTTPException(400, "Cannot divide by zero")` is caught by the handler's own
`except Exception` clause and re-raised as
`HTTPException(400, str(e))`, so the zero-divisor error surfaces with detail
`"400: Cannot divide by zero"`. -/
def divide_numbers (a b : ℚ) : Except HttpError MathResponse :=
  let inner : Except HttpError MathResponse :=
    if b = 0 then .error { status := 400, detail := "Cannot divide by zero" }
    else .ok { result := a / b, operation := "division", inputs := [a, b] }
  match inner with
  | .error e => .error { status := 400, detail := strOfHttpError e }
  | .ok r => .ok r

/-- Whether an `Except` value is a success. -/
def exceptIsOk {ε α : Type} : Except ε α → Bool
  | .ok _ => true
  | .error _ => false

/-- Response body of `GET /api/health`. -/
structure HealthResponse where
  status : String
  timestamp : String
  version : String
  services : List String
deriving DecidableEq, Repr

/-- `GET /api/health` (`health_check` in `api_server.py`); `now` stands for
`datetime.now().isoformat()`. -/
def health_check (now : String) : HealthResponse :=
  { status := "healthy"
    timestamp := now
    version := "1.0.0"
    services := ["math", "finance", "news", "music", "data_analysis", "web_scraping"] }

/-- The fields of the `yfinance` info dictionary read by `get_stock_price`;
`none` models an absent key (whose `.get` default is `"N/A"`) and the
non-price fields are kept as their rendered strings. -/
structure StockInfo where
  regularMarketPrice : Option ℚ
  currency : Option String
  longName : Option String
  previousCloseStr : Option String
  marketCapStr : Option String
  volumeStr : Option String
  fiftyTwoWeekHighStr : Option String
  fiftyTwoWeekLowStr : Option String

/-- Fallback text of `get_stock_price` when the price is absent or falsy. -/
def stockNotFoundMsg (symbol : String) : String :=
  "Could not retrieve stock price for " ++ pyUpper symbol ++
    ". Please check the symbol and try again."

/-- Success text of `get_stock_price` (the triple-quoted f-string). -/
def stockPriceMsg (symbol : String) (info : StockInfo) (price : ℚ) : String :=
  let currency := info.currency.getD "USD"
  let company_name := info.longName.getD (pyUpper symbol)
  "\n**Stock Price for " ++ company_name ++ " (" ++ pyUpper symbol ++ ")**\n" ++
    "- **Current Price**: " ++ toString price ++ " " ++ currency ++ "\n" ++
    "- **Previous Close**: " ++ info.previousCloseStr.getD "N/A" ++ " " ++ currency ++ "\n" ++
    "- **Market Cap**: " ++ info.marketCapStr.getD "N/A" ++ " " ++ currency ++ "\n" ++
    "- **Volume**: " ++ info.volumeStr.getD "N/A" ++ "\n" ++
    "- **52 Week High**: " ++ info.fiftyTwoWeekHighStr.getD "N/A" ++ " " ++ currency ++ "\n" ++
    "- **52 Week Low**: " ++ info.fiftyTwoWeekLowStr.getD "N/A" ++ " " ++ currency ++ "\n"

/-- `get_stock_price` in `finance_tools.py`.  `fetch` is the outcome of
`yf.Ticker(symbol.upper()).info`; the `except Exception` clause turns a raised
exception into the error string built from the original `symbol`. -/
def get_stock_price (symbol : String) (fetch : Except String StockInfo) : String :=
  match fetch with
  | .error e => "Error retrieving stock price for " ++ symbol ++ ": " ++ e
  | .ok info =>
    match info.regularMarketPrice with
    | some price =>
      if price = 0 then stockNotFoundMsg symbol
      else stockPriceMsg symbol info price
    | none => stockNotFoundMsg symbol

/-- Ticker normalisation at the top of `get_crypto_price`: append `-USD`
unless the symbol already ends with it (case-sensitive). -/
def cryptoTicker (symbol : String) : String :=
  if pyEndsWith symbol "-USD" then symbol else pyUpper symbol ++ "-USD"

/-- The `yfinance` info fields read by `get_crypto_price`; the non-price
fields are kept as their rendered strings. -/
structure CryptoInfo where
  regularMarketPrice : Option ℚ
  changePctStr : String
  volumeStr : String
  marketCapStr : String
  circulatingSupplyStr : String

/-- Success text of `get_crypto_price` (the triple-quoted f-string). -/
def cryptoPriceMsg (ticker : String) (info : CryptoInfo) (price : ℚ) : String :=
  "\n**Cryptocurrency Price: " ++ ticker.replace "-USD" "" ++ "**\n\n" ++
    "- **Current Price**: $" ++ toString price ++ " USD\n" ++
    "- **24h Change**: " ++ info.changePctStr ++ "%\n" ++
    "- **24h Volume**: " ++ info.volumeStr ++ "\n" ++
    "- **Market Cap**: $" ++ info.marketCapStr ++ " USD\n" ++
    "- **Circulating Supply**: " ++ info.circulatingSupplyStr ++ "\n"

/-- `get_crypto_price` in `finance_tools.py`.  `fetch` maps the ticker string
actually passed to `yf.Ticker` to the outcome of reading its info; the symbol
variable is reassigned to the normalised ticker before any fallible call, so
every message below uses the normalised form. -/
def get_crypto_price (symbol : String) (fetch : String → Except String CryptoInfo) : String :=
  let ticker := cryptoTicker symbol
  match fetch ticker with
  | .error e => "Error retrieving crypto price for " ++ ticker ++ ": " ++ e
  | .ok info =>
    match info.regularMarketPrice with
    | some price =>
      if price = 0 then
        "Could not retrieve price for " ++ ticker.replace "-USD" "" ++
          ". Please check the symbol."
      else cryptoPriceMsg ticker info price
    | none =>
      "Could not retrieve price for " ++ ticker.replace "-USD" "" ++
        ". Please check the symbol."

/-- A fetched and parsed HTML page as seen by `scrape_website`: the text of the
`title` tag when present, the `get_text()` of each `h1`/`h2`/`h3` heading, the
`get_text()` of each link with an `href`, and the page's `soup.get_text()`
after script/style removal. -/
structure Page where
  title : Option String
  headings : List String
  links : List String
  rawText : String

/-- The `result` field of a scrape response: either a single string or a list
of strings, matching the two shapes produced by `scrape_website`. -/
inductive ScrapeValue where
  | str (s : String)
  | list (l : List String)
deriving DecidableEq, Repr

/-- Response body of `POST /api/web/scrape`. -/
structure ScrapeResponse where
  url : String
  prompt : String
  result : ScrapeValue
  timestamp : String
deriving DecidableEq, Repr

/-- The whitespace clean-up applied to `soup.get_text()` in `scrape_website`:
strip each line, split lines on double spaces, strip the pieces, and join the
non-empty pieces with single spaces. -/
def cleanText (raw : String) : String :=
  let lines := (raw.splitOn "\n").map String.trim
  let chunks := (lines.map (fun line => (line.splitOn "  ").map String.trim)).flatten
  String.intercalate " " (chunks.filter (fun c => c != ""))

/-- `POST /api/web/scrape` (`scrape_website` in `api_server.py`).  `fetch` is
the combined outcome of `requests.get` + `raise_for_status` + parsing; a raised
exception becomes `HTTPException(400, str(e))`. -/
def scrape_website (url prompt : String) (fetch : Except String Page) (now : String) :
    Except HttpError ScrapeResponse :=
  match fetch with
  | .error e => .error { status := 400, detail := e }
  | .ok page =>
    let text := cleanText page.rawText
    let prompt_lower := pyLower prompt
    let result : ScrapeValue :=
      if pyIn "title" prompt_lower then
        .str (page.title.getD "No title found")
      else if pyIn "headings" prompt_lower then
        .list ((page.headings.take 5).map String.trim)
      else if pyIn "links" prompt_lower then
        .list ((page.links.take 10).map String.trim)
      else
        .str (if text.length > 500 then text.take 500 ++ "..." else text)
    .ok { url := url, prompt := prompt, result := result, timestamp := now }

/-- A pandas `DataFrame` as used by `analyze_data_with_sql`: the quantities the
dispatch logic branches on are explicit (`nRows`, `nCols`, `columns`, per-column
null counts, the numeric-column list, the literal `dtype in ['number']` test),
while the pandas text renderings (`to_string`, `describe`, `nunique`, `corr`,
`groupby` aggregates, `nlargest`, the dtype dictionary) are opaque
string-valued fields. -/
structure DataFrame where
  nRows : Nat
  nCols : Nat
  columns : List String
  headStr : Nat → String
  colDtype : String → String
  colNullCount : String → Nat
  numericCols : List String
  describeStr : String
  missingTableStr : String
  nuniqueStr : String
  corrStr : String
  groupSizeStr : String → String
  groupMeanStr : String → String
  groupAggStr : String → String
  nlargestStr : Nat → String → String
  dtypesStr : String
  dtypeIsNumberLiteral : String → Bool

/-- Total null count `df.isnull().sum().sum()`. -/
def totalMissing (df : DataFrame) : Nat := (df.columns.map df.colNullCount).sum

/-- Text returned by the first-rows branch of `analyze_data_with_sql`. -/
def firstRowsMsg (df : DataFrame) (num_rows : Nat) : String :=
  "📊 First " ++ toString num_rows ++ " rows of the data:\n\n" ++
    df.headStr num_rows ++ "\n\n**Data Shape**: " ++ toString df.nRows ++
    " rows × " ++ toString df.nCols ++ " columns"

/-- Text returned by the column-information branch of `analyze_data_with_sql`. -/
def columnInfoMsg (df : DataFrame) : String :=
  let col_info := df.columns.map (fun col =>
    "- **" ++ col ++ "**: " ++ df.colDtype col ++ " (" ++
      toString (df.colNullCount col) ++ " null values)")
  "📋 Column Information:\n\n**Total Columns**: " ++ toString df.columns.length ++
    "\n**Data Shape**: " ++ toString df.nRows ++ " rows × " ++ toString df.nCols ++
    " columns\n\n**Column Details**:\n" ++ String.intercalate "\n" col_info

/-- Text returned by the summary-statistics branch of `analyze_data_with_sql`. -/
def summaryMsg (df : DataFrame) : String :=
  if df.numericCols.length > 0 then
    "📈 Summary Statistics for Numeric Columns:\n\n**Numeric Columns**: " ++
      pyListRepr df.numericCols ++ "\n\n" ++ df.describeStr
  else "❌ No numeric columns found in the dataset for statistical analysis."

/-- Text returned by the missing-values branch of `analyze_data_with_sql`:
the per-column report when some column has nulls, the fixed success message
otherwise. -/
def missingBranchMsg (df : DataFrame) : String :=
  if (df.columns.filter (fun c => decide (df.colNullCount c > 0))).length > 0 then
    "🔍 Missing Values Analysis:\n\n" ++ df.missingTableStr ++
      "\n\n**Total Missing Values**: " ++ toString (totalMissing df)
  else "✅ No missing values found in the dataset!"

/-- Text returned by the unique-values branch of `analyze_data_with_sql`. -/
def uniqueMsg (df : DataFrame) : String :=
  "🎯 Unique Values Count:\n\n" ++ df.nuniqueStr

/-- Text returned by the correlation branch of `analyze_data_with_sql`. -/
def corrMsg (df : DataFrame) : String :=
  if df.numericCols.length > 1 then "🔗 Correlation Matrix:\n\n" ++ df.corrStr
  else "❌ Need at least 2 numeric columns for correlation analysis."

/-- Result produced once the group-by branch has identified a grouping column:
sub-dispatch on `count`/`sum`, then `mean`/`average`, then the generic
aggregate. -/
def groupResultMsg (df : DataFrame) (query_lower col : String) : String :=
  let header := "📊 Grouped Analysis by " ++ sglq ++ col ++ sglq ++ ":\n\n"
  if ["count", "sum"].any (fun w => pyIn w query_lower) then
    header ++ df.groupSizeStr col
  else if ["mean", "average"].any (fun w => pyIn w query_lower) then
    if df.numericCols.length > 0 then header ++ df.groupMeanStr col
    else "❌ No numeric columns found for averaging."
  else header ++ df.groupAggStr col

/-- The scan over `user_query.split()` in the group-by branch: find a word
whose lowercase form is `by` or `group` followed by a word that names a
column. -/
def findGroup (df : DataFrame) (query_lower : String) : List String → Option String
  | [] => none
  | [_] => none
  | w :: next :: rest =>
    if (pyLower w == "by" || pyLower w == "group") && df.columns.contains next then
      some (groupResultMsg df query_lower next)
    else findGroup df query_lower (next :: rest)

/-- Text returned by the top-values branch of `analyze_data_with_sql`. -/
def topBranchMsg (df : DataFrame) (user_query query_lower : String) : String :=
  let numbers := extractNumbers user_query
  let n := match numbers with | [] => 10 | k :: _ => k
  match df.columns.find? (fun col => pyIn (pyLower col) query_lower) with
  | some col =>
    "🏆 Top " ++ toString n ++ " values by " ++ sglq ++ col ++ sglq ++ ":\n\n" ++
      (if df.dtypeIsNumberLiteral col then df.nlargestStr n col else df.headStr n)
  | none =>
    match df.numericCols with
    | c :: _ =>
      "🏆 Top " ++ toString n ++ " values by " ++ sglq ++ c ++ sglq ++ ":\n\n" ++
        df.nlargestStr n c
    | [] => "🏆 Top " ++ toString n ++ " rows:\n\n" ++ df.headStr n

/-- The generic data overview returned by the final `else` of
`analyze_data_with_sql`. -/
def overviewMsg (df : DataFrame) : String :=
  "📊 Data Overview:\n\n**Dataset Shape**: " ++ toString df.nRows ++ " rows × " ++
    toString df.nCols ++ " columns\n**Columns**: " ++ pyListRepr df.columns ++
    "\n**Data Types**: " ++ df.dtypesStr ++ "\n**Missing Values**: " ++
    toString (totalMissing df) ++ " total\n\n**Sample Data**:\n" ++ df.headStr 5 ++
    "\n\n💡 **Try asking for:**\n- \"Show me the first 10 rows\"\n- \"What are the column names and data types?\"\n- \"Calculate summary statistics\"\n- \"Find missing values\"\n- \"Show correlations between numeric columns\"\n- \"Group by [column] and calculate averages\"\n- \"Show top 5 values by [column]\"\n"

/-- The keyword dispatch of `analyze_data_with_sql` over an already-parsed
`DataFrame`.  The chain of `if`/`elif` tests is translated branch for branch;
the first branch returns a value only when the query also contains `first` or
`head`, and otherwise the Python function falls off the end of the `if` body,
returning `None`. -/
def analyze_dispatch (df : DataFrame) (user_query : String) : Option String :=
  let query_lower := pyLower user_query
  if ["first", "rows", "head", "show"].any (fun w => pyIn w query_lower) then
    if pyIn "first" query_lower || pyIn "head" query_lower then
      let numbers := extractNumbers user_query
      let num_rows := match numbers with | [] => 5 | k :: _ => min k df.nRows
      some (firstRowsMsg df num_rows)
    else none
  else if ["columns", "column names", "data types"].any (fun w => pyIn w query_lower) then
    some (columnInfoMsg df)
  else if ["summary", "statistics", "describe", "mean", "median", "std"].any
      (fun w => pyIn w query_lower) then
    some (summaryMsg df)
  else if ["missing", "null", "na"].any (fun w => pyIn w query_lower) then
    some (missingBranchMsg df)
  else if ["unique", "distinct", "values"].any (fun w => pyIn w query_lower) then
    some (uniqueMsg df)
  else if ["correlation", "correlate"].any (fun w => pyIn w query_lower) then
    some (corrMsg df)
  else if ["group", "groupby", "count", "average", "mean"].any
      (fun w => pyIn w query_lower) then
    match findGroup df query_lower (pySplit user_query) with
    | some r => some r
    | none =>
      some ("❌ Could not identify grouping column. Please specify " ++ sglq ++
        "group by [column_name]" ++ sglq ++ ".")
  else if ["top", "highest", "maximum", "largest"].any (fun w => pyIn w query_lower) then
    some (topBranchMsg df user_query query_lower)
  else
    some (overviewMsg df)

/-- `analyze_data_with_sql` in `data_analysis_tools.py`.  `parse` is the
outcome of `pd.read_csv(StringIO(data_content), ...)`; a raised exception is
caught by the enclosing `except Exception` and rendered as an error string.
The `openai_api_key` argument is accepted but never read. -/
def analyze_data_with_sql (parse : Except String DataFrame) (user_query : String)
    (openai_api_key : Option String) : Option String :=
  match parse with
  | .error e => some ("Error analyzing data: " ++ e)
  | .ok df => analyze_dispatch df user_query

/-- Every keyword tested anywhere in the `if`/`elif` dispatch chain of
`analyze_data_with_sql`, in branch order. -/
def dispatchKeywords : List String :=
  ["first", "rows", "head", "show",
   "columns", "column names", "data types",
   "summary", "statistics", "describe", "mean", "median", "std",
   "missing", "null", "na",
   "unique", "distinct", "values",
   "correlation", "correlate",
   "group", "groupby", "count", "average",
   "top", "highest", "maximum", "largest"]

/-- The keywords of the three branches tested before the missing-values
branch. -/
def earlierBranchKeywords : List String :=
  ["first", "rows", "head", "show",
   "columns", "column names", "data types",
   "summary", "statistics", "describe", "mean", "median", "std"]

/-- A small concrete data frame used to instantiate the dispatch theorems. -/
def sampleDF : DataFrame :=
  { nRows := 2
    nCols := 2
    columns := ["name", "age"]
    headStr := fun _ => "name age"
    colDtype := fun _ => "object"
    colNullCount := fun _ => 0
    numericCols := ["age"]
    describeStr := "stats"
    missingTableStr := "table"
    nuniqueStr := "uniq"
    corrStr := "corr"
    groupSizeStr := fun _ => "gs"
    groupMeanStr := fun _ => "gm"
    groupAggStr := fun _ => "ga"
    nlargestStr := fun _ _ => "top-rows"
    dtypesStr := "types"
    dtypeIsNumberLiteral := fun _ => false }

/-- A small concrete page used to instantiate the scrape theorem. -/
def samplePage : Page :=
  { title := some "Hello", headings := [], links := [], rawText := "" }

/-- Claim C2: `health_check` returns status `"healthy"` and the fixed
six-entry services list on every call; its only input is the call time, and
the status and services fields do not depend on it (the handler consults no
upstream service at all). -/
theorem healthCheckFixedPayload (t t' : String) :
    (health_check t).status = "healthy" ∧
    (health_check t).services =
      ["math", "finance", "news", "music", "data_analysis", "web_scraping"] ∧
    (health_check t).services.length = 6 ∧
    (health_check t).status = (health_check t').status ∧
    (health_check t).services = (health_check t').services :=
  ⟨rfl, rfl, rfl, rfl, rfl⟩

/-- Claim C3: the math endpoints return the exact arithmetic result of the
named operation (numbers modelled as rationals): `add` returns `a + b`,
`multiply` returns `a * b`, `subtract` returns `a - b`, and `divide` with a
nonzero divisor returns `a / b`; in particular `add(10,5) = 15`,
`multiply(6,7) = 42`, `subtract(20,8) = 12` and `divide(15,3) = 5`. -/
theorem mathEndpointsExact (a b : ℚ) (hb : b ≠ 0) :
    (add_numbers a b).result = a + b ∧
    (multiply_numbers a b).result = a * b ∧
    (subtract_numbers a b).result = a - b ∧
    divide_numbers a b = .ok { result := a / b, operation := "division", inputs := [a, b] } ∧
    (add_numbers 10 5).result = 15 ∧
    (multiply_numbers 6 7).result = 42 ∧
    (subtract_numbers 20 8).result = 12 ∧
    divide_numbers 15 3 = .ok { result := 5, operation := "division", inputs := [15, 3] } :=
  ⟨rfl, rfl, rfl, by simp [divide_numbers, hb],
   by norm_num [add_numbers], by norm_num [multiply_numbers],
   by norm_num [subtract_numbers], by simp only [divide_numbers]; norm_num⟩

/-- Witness for `mathEndpointsExact` at `a = 15`, `b = 3`. -/
theorem mathEndpointsExact_witness :
    (3 : ℚ) ≠ 0 ∧
    divide_numbers 15 3 = .ok { result := 5, operation := "division", inputs := [15, 3] } :=
  ⟨by norm_num, (mathEndpointsExact 15 3 (by norm_num)).2.2.2.2.2.2.2⟩

/-- Claim C4: dividing by zero always yields an HTTP 400 error (the inner
`HTTPException` is re-wrapped by the handler's own `except` clause, so the
detail string carries the `"400: "` prefix) and never a successful numeric
response. -/
theorem divideByZeroRejected (a : ℚ) :
    divide_numbers a 0 = .error { status := 400, detail := "400: Cannot divide by zero" } ∧
    exceptIsOk (divide_numbers a 0) = false :=
  ⟨rfl, rfl⟩

/-- Claim C5: at each of the three cited handler boundaries, an exception
raised by the external call is caught and converted — `get_stock_price`
returns the error-prefixed natural-language string, `scrape_website` returns
an HTTP 400 whose detail is the exception's message, and
`analyze_data_with_sql` returns the error-prefixed string; each embedding is a
total function consuming a single external outcome, so no exception
propagates and nothing is retried. -/
theorem handlerErrorConversion :
    (∀ symbol msg, get_stock_price symbol (.error msg) =
      "Error retrieving stock price for " ++ symbol ++ ": " ++ msg) ∧
    (∀ url prompt now msg, scrape_website url prompt (.error msg) now =
      .error { status := 400, detail := msg }) ∧
    (∀ q key msg, analyze_data_with_sql (.error msg) q key =
      some ("Error analyzing data: " ++ msg)) :=
  ⟨fun _ _ => rfl, fun _ _ _ _ => rfl, fun _ _ _ => rfl⟩

/-- Claim C7: when the scrape prompt contains `"title"` (case-insensitively),
the handler's result is exactly the page's title-tag text, or the fixed
sentinel `"No title found"` when the page has none. -/
theorem scrapeTitleBranch (url prompt now : String) (page : Page)
    (h : pyIn "title" (pyLower prompt) = true) :
    scrape_website url prompt (.ok page) now =
      .ok { url := url, prompt := prompt,
            result := .str (page.title.getD "No title found"), timestamp := now } := by
  simp [scrape_website, h]

/-- Witness for `scrapeTitleBranch` on a concrete page with title `"Hello"`
and the prompt `"Get the Title"`. -/
theorem scrapeTitleBranch_witness :
    pyIn "title" (pyLower "Get the Title") = true ∧
    scrape_website "http://example.com" "Get the Title" (.ok samplePage) "t0" =
      .ok { url := "http://example.com", prompt := "Get the Title",
            result := .str "Hello", timestamp := "t0" } :=
  ⟨rfl, scrapeTitleBranch "http://example.com" "Get the Title" "t0" samplePage rfl⟩

/-- Claim C8: a query containing one of `first`/`rows`/`head`/`show` but
neither `first` nor `head` enters the first branch of
`analyze_data_with_sql`, whose body returns a value only in the
`first`/`head` sub-case, so the function returns Python `None` (here
`Option.none`) rather than any analysis string. -/
theorem showBranchReturnsNone (df : DataFrame) (q : String) (key : Option String)
    (hany : (["first", "rows", "head", "show"].any fun w => pyIn w (pyLower q)) = true)
    (hf : pyIn "first" (pyLower q) = false)
    (hh : pyIn "head" (pyLower q) = false) :
    analyze_data_with_sql (.ok df) q key = none := by
  simp only [analyze_data_with_sql, analyze_dispatch, hany, hf, hh]
  simp

/-- Witness for `showBranchReturnsNone` on the query `"show the data"`. -/
theorem showBranchReturnsNone_witness :
    analyze_data_with_sql (.ok sampleDF) "show the data" none = none :=
  showBranchReturnsNone sampleDF "show the data" none (by decide) rfl rfl

/-- Claim C9: the result of `analyze_data_with_sql` does not depend on the
`openai_api_key` argument — the parameter is accepted and never read. -/
theorem analyzeKeyIndependence (parse : Except String DataFrame) (q : String)
    (k₁ k₂ : Option String) :
    analyze_data_with_sql parse q k₁ = analyze_data_with_sql parse q k₂ := rfl

/-- Claim C1 counterexample: the query `"show missing"` contains the substring
`"missing"`, yet `analyze_data_with_sql` does not reach the missing-values
branch — the word `"show"` sends it into the first branch, which returns
`none` rather than either missing-values message (both of which are `some`
strings). -/
theorem missingQueryDispatch_cex :
    pyIn "missing" (pyLower "show missing") = true ∧
    analyze_data_with_sql (.ok sampleDF) "show missing" none = none :=
  ⟨rfl, rfl⟩

/-- Claim C1 (amended): a query containing `"missing"` routes to the
missing-values branch (the per-column report or the no-missing-values
message) provided its lowercase form contains none of the keywords of the
three branches tested earlier: `first`, `rows`, `head`, `show`, `columns`,
`column names`, `data types`, `summary`, `statistics`, `describe`, `mean`,
`median`, `std`. -/
theorem missingQueryDispatch (df : DataFrame) (q : String) (key : Option String)
    (hm : pyIn "missing" (pyLower q) = true)
    (he : ∀ w ∈ earlierBranchKeywords, pyIn w (pyLower q) = false) :
    analyze_data_with_sql (.ok df) q key = some (missingBranchMsg df) := by
  have h01 : pyIn "first" (pyLower q) = false := he _ (by decide)
  have h02 : pyIn "rows" (pyLower q) = false := he _ (by decide)
  have h03 : pyIn "head" (pyLower q) = false := he _ (by decide)
  have h04 : pyIn "show" (pyLower q) = false := he _ (by decide)
  have h05 : pyIn "columns" (pyLower q) = false := he _ (by decide)
  have h06 : pyIn "column names" (pyLower q) = false := he _ (by decide)
  have h07 : pyIn "data types" (pyLower q) = false := he _ (by decide)
  have h08 : pyIn "summary" (pyLower q) = false := he _ (by decide)
  have h09 : pyIn "statistics" (pyLower q) = false := he _ (by decide)
  have h10 : pyIn "describe" (pyLower q) = false := he _ (by decide)
  have h11 : pyIn "mean" (pyLower q) = false := he _ (by decide)
  have h12 : pyIn "median" (pyLower q) = false := he _ (by decide)
  have h13 : pyIn "std" (pyLower q) = false := he _ (by decide)
  simp only [analyze_data_with_sql, analyze_dispatch, List.any_cons, List.any_nil,
    h01, h02, h03, h04, h05, h06, h07, h08, h09, h10, h11, h12, h13, hm,
    Bool.or_false, Bool.false_or, Bool.true_or, Bool.or_true, Bool.or_self]
  simp

/-- Witness for `missingQueryDispatch` on the query `"missing"`. -/
theorem missingQueryDispatch_witness :
    pyIn "missing" (pyLower "missing") = true ∧
    analyze_data_with_sql (.ok sampleDF) "missing" none = some (missingBranchMsg sampleDF) :=
  ⟨rfl, missingQueryDispatch sampleDF "missing" none rfl (by decide)⟩

/-- Claim C6: a query whose lowercase form contains none of the dispatch
keywords (and no column name) falls through every branch of
`analyze_data_with_sql` to the generic data overview. -/
theorem noKeywordFallsThrough (df : DataFrame) (q : String) (key : Option String)
    (hk : ∀ w ∈ dispatchKeywords, pyIn w (pyLower q) = false)
    (hc : ∀ c ∈ df.columns, pyIn (pyLower c) (pyLower q) = false) :
    analyze_data_with_sql (.ok df) q key = some (overviewMsg df) := by
  have h01 : pyIn "first" (pyLower q) = false := hk _ (by decide)
  have h02 : pyIn "rows" (pyLower q) = false := hk _ (by decide)
  have h03 : pyIn "head" (pyLower q) = false := hk _ (by decide)
  have h04 : pyIn "show" (pyLower q) = false := hk _ (by decide)
  have h05 : pyIn "columns" (pyLower q) = false := hk _ (by decide)
  have h06 : pyIn "column names" (pyLower q) = false := hk _ (by decide)
  have h07 : pyIn "data types" (pyLower q) = false := hk _ (by decide)
  have h08 : pyIn "summary" (pyLower q) = false := hk _ (by decide)
  have h09 : pyIn "statistics" (pyLower q) = false := hk _ (by decide)
  have h10 : pyIn "describe" (pyLower q) = false := hk _ (by decide)
  have h11 : pyIn "mean" (pyLower q) = false := hk _ (by decide)
  have h12 : pyIn "median" (pyLower q) = false := hk _ (by decide)
  have h13 : pyIn "std" (pyLower q) = false := hk _ (by decide)
  have h14 : pyIn "missing" (pyLower q) = false := hk _ (by decide)
  have h15 : pyIn "null" (pyLower q) = false := hk _ (by decide)
  have h16 : pyIn "na" (pyLower q) = false := hk _ (by decide)
  have h17 : pyIn "unique" (pyLower q) = false := hk _ (by decide)
  have h18 : pyIn "distinct" (pyLower q) = false := hk _ (by decide)
  have h19 : pyIn "values" (pyLower q) = false := hk _ (by decide)
  have h20 : pyIn "correlation" (pyLower q) = false := hk _ (by decide)
  have h21 : pyIn "correlate" (pyLower q) = false := hk _ (by decide)
  have h22 : pyIn "group" (pyLower q) = false := hk _ (by decide)
  have h23 : pyIn "groupby" (pyLower q) = false := hk _ (by decide)
  have h24 : pyIn "count" (pyLower q) = false := hk _ (by decide)
  have h25 : pyIn "average" (pyLower q) = false := hk _ (by decide)
  have h26 : pyIn "top" (pyLower q) = false := hk _ (by decide)
  have h27 : pyIn "highest" (pyLower q) = false := hk _ (by decide)
  have h28 : pyIn "maximum" (pyLower q) = false := hk _ (by decide)
  have h29 : pyIn "largest" (pyLower q) = false := hk _ (by decide)
  simp only [analyze_data_with_sql, analyze_dispatch, List.any_cons, List.any_nil,
    h01, h02, h03, h04, h05, h06, h07, h08, h09, h10, h11, h12, h13, h14, h15,
    h16, h17, h18, h19, h20, h21, h22, h23, h24, h25, h26, h27, h28, h29,
    Bool.or_false, Bool.or_self]
  simp

/-- Witness for `noKeywordFallsThrough` on the keyword-free query `"xyz"`. -/
theorem noKeywordFallsThrough_witness :
    analyze_data_with_sql (.ok sampleDF) "xyz" none = some (overviewMsg sampleDF) :=
  noKeywordFallsThrough sampleDF "xyz" none (by decide) (by decide)

/-- A string ending in lowercase `-usd` does not end in `-USD`: the two
four-character suffixes at the same position would have to be equal. -/
theorem pyEndsWith_usd_not_USD (s : String) (h : pyEndsWith s "-usd" = true) :
    pyEndsWith s "-USD" = false := by
  have hd : s.toList.drop (s.toList.length - 4) = "-usd".toList := by
    simpa [pyEndsWith] using h
  have : s.toList.drop (s.toList.length - 4) ≠ "-USD".toList := by
    rw [hd]; decide
  simpa [pyEndsWith] using this

/-- Uppercasing a string that ends in `-usd` yields a string ending in `-USD`,
so appending `-USD` yields a string ending in `-USD-USD`. -/
theorem pyUpper_append_usd_ends (s : String) (h : pyEndsWith s "-usd" = true) :
    pyEndsWith (pyUpper s ++ "-USD") "-USD-USD" = true := by
  have hd : s.toList.drop (s.toList.length - 4) = "-usd".toList := by
    simpa [pyEndsWith] using h
  have hmu : (s.toList.map Char.toUpper).drop (s.toList.length - 4) = "-USD".toList := by
    rw [← List.map_drop, hd]; decide
  have hlist : (pyUpper s ++ "-USD").toList = s.toList.map Char.toUpper ++ "-USD".toList := by
    simp [pyUpper, String.toList]
  have hsplit : s.toList.map Char.toUpper =
      (s.toList.map Char.toUpper).take (s.toList.length - 4) ++ "-USD".toList := by
    conv_lhs => rw [← List.take_append_drop (s.toList.length - 4) (s.toList.map Char.toUpper)]
    rw [hmu]
  have htake : ((s.toList.map Char.toUpper).take (s.toList.length - 4)).length =
      s.toList.length - 4 := by
    simp [List.length_take, List.length_map]
  have hdrop := List.drop_left ((s.toList.map Char.toUpper).take (s.toList.length - 4))
    ("-USD".toList ++ "-USD".toList)
  rw [htake] at hdrop
  simp only [pyEndsWith, hlist, decide_eq_true_eq]
  rw [hsplit]
  have hidx : ((s.toList.map Char.toUpper).take (s.toList.length - 4) ++
      ("-USD".toList ++ "-USD".toList)).length - ("-USD-USD".toList).length =
      s.toList.length - 4 := by
    simp [List.length_append, htake]
  rw [List.append_assoc, hidx, hdrop]
  decide

/-- Claim C10: `get_crypto_price` queries the unchanged symbol exactly when it
already ends in the case-sensitive suffix `-USD`, and otherwise queries
`upper(symbol) ++ "-USD"`; a lowercase input ending in `-usd` therefore gets
uppercased and suffixed again, producing a ticker ending in `-USD-USD`; and
the handler's output depends on the fetch function only at that normalised
ticker. -/
theorem cryptoTickerSuffix (s : String) :
    (pyEndsWith s "-USD" = true → cryptoTicker s = s) ∧
    (pyEndsWith s "-USD" = false → cryptoTicker s = pyUpper s ++ "-USD") ∧
    (pyEndsWith s "-usd" = true → pyEndsWith (cryptoTicker s) "-USD-USD" = true) ∧
    (∀ f g : String → Except String CryptoInfo,
      f (cryptoTicker s) = g (cryptoTicker s) →
        get_crypto_price s f = get_crypto_price s g) := by
  refine ⟨fun h => by simp [cryptoTicker, h], fun h => by simp [cryptoTicker, h],
    fun h => ?_, fun f g h => by simp only [get_crypto_price, h]⟩
  have hf := pyEndsWith_usd_not_USD s h
  rw [cryptoTicker, hf]
  exact pyUpper_append_usd_ends s h

/-- Witness for `cryptoTickerSuffix` at the symbols `"BTC-USD"`, `"eth"` and
`"btc-usd"`. -/
theorem cryptoTickerSuffix_witness :
    cryptoTicker "BTC-USD" = "BTC-USD" ∧
    cryptoTicker "eth" = "ETH-USD" ∧
    pyEndsWith (cryptoTicker "btc-usd") "-USD-USD" = true ∧
    get_crypto_price "btc" (fun _ => .error "boom") =
      get_crypto_price "btc" (fun _ => .error "boom") :=
  ⟨(cryptoTickerSuffix "BTC-USD").1 rfl,
   (cryptoTickerSuffix "eth").2.1 rfl,
   (cryptoTickerSuffix "btc-usd").2.2.1 rfl,
   (cryptoTickerSuffix "btc").2.2.2 (fun _ => .error "boom") (fun _ => .error "boom") rfl⟩
